import Mathlib

/-!
Verification of the request handler in
`src/infrastructure/lambda/lambda_function.py`.

The handler receives a structured invocation event (a JSON-derived Python
dictionary), parses its `body` field as JSON, branches on the truthiness of
the decoded `message` value, and returns a structured response; any raised
failure is caught at the boundary, logged, and converted to a 500 response.

The embedding models Python values arriving in the event (`PyValue`), JSON
values produced by decoding (`JValue`), `json.loads` as an executable
recursive-descent parser over the JSON grammar used by Python's `json`
module, `dict.get`-with-default lookup (`dictFind`), Python truthiness of
decoded values (`truthy`), and the `try/except` control flow as an
`Except`-valued pipeline (`handler_try`) wrapped by `lambda_handler`, which
also records the diagnostic log line written on the failure path.
-/

namespace ClinicConnect

/-- JSON values as returned by Python's `json.loads`.  A number is kept
exactly as mantissa and base-10 exponent (`num m e` denotes `m * 10 ^ e`),
which determines Python truthiness precisely.  `nan` and `inf neg` are the
float values produced for the out-of-spec constants `NaN`, `Infinity` and
`-Infinity`, which Python's decoder accepts by default. -/
inductive JValue where
  | null : JValue
  | bool : Bool → JValue
  | num : Int → Int → JValue
  | nan : JValue
  | inf : Bool → JValue
  | str : String → JValue
  | arr : List JValue → JValue
  | obj : List (String × JValue) → JValue
deriving Repr

/-- Python values that can occur in a JSON-derived invocation event
(API Gateway delivers the event as decoded JSON, so event values are
strings, numbers, booleans, `None`, lists and dictionaries). -/
inductive PyValue where
  | none : PyValue
  | bool : Bool → PyValue
  | int : Int → PyValue
  | str : String → PyValue
  | list : List PyValue → PyValue
  | dict : List (String × PyValue) → PyValue
deriving Repr

/-- An invocation event: a Python dictionary with string keys, modelled as
an association list in insertion order. -/
def Event := List (String × PyValue)

/-- Lookup in a Python dictionary modelled as an association list built by
insertion: a later binding of the same key overwrites an earlier one, so
the last binding wins. -/
def dictFind {α : Type} (fields : List (String × α)) (key : String) : Option α :=
  fields.foldl (fun acc kv => if kv.1 = key then some kv.2 else acc) none

/-- Python truthiness (`bool(x)`) of a decoded JSON value: `None`, `False`,
zero, the empty string, the empty list and the empty dict are falsy;
`nan`, `inf` and `-inf` are truthy. -/
def truthy : JValue → Bool
  | .null => false
  | .bool b => b
  | .num m _ => m != 0
  | .nan => true
  | .inf _ => true
  | .str s => !s.isEmpty
  | .arr xs => !xs.isEmpty
  | .obj fs => !fs.isEmpty

/-! ### The JSON parser modelling `json.loads` -/

/-- JSON insignificant whitespace (the characters skipped by Python's
`json` decoder). -/
def isJsonWs (c : Char) : Bool :=
  c = ' ' || c = '\t' || c = '\n' || c = '\r'

/-- Drop leading JSON whitespace. -/
def skipWs : List Char → List Char
  | [] => []
  | c :: cs => if isJsonWs c then skipWs cs else c :: cs

/-- Value of a hexadecimal digit, if the character is one. -/
def hexDigit (c : Char) : Option Nat :=
  if '0' ≤ c ∧ c ≤ '9' then some (c.toNat - 48)
  else if 'a' ≤ c ∧ c ≤ 'f' then some (c.toNat - 87)
  else if 'A' ≤ c ∧ c ≤ 'F' then some (c.toNat - 55)
  else none

/-- Numeric value of a list of decimal digits. -/
def digitsToNat (ds : List Char) : Nat :=
  ds.foldl (fun a c => 10 * a + (c.toNat - 48)) 0

/-- Translation of a single-character JSON string escape. -/
def escChar : Char → Option Char
  | '"' => some '"'
  | '\\' => some '\\'
  | '/' => some '/'
  | 'b' => some (Char.ofNat 8)
  | 'f' => some (Char.ofNat 12)
  | 'n' => some '\n'
  | 'r' => some '\r'
  | 't' => some '\t'
  | _ => none

/-- Body of a JSON string literal, after the opening quote: reads until
the closing quote, translating escapes and rejecting raw control
characters, as Python's decoder does.  Fuel bounds the recursion. -/
def parseStrBody : Nat → List Char → List Char → Except String (String × List Char)
  | 0, _, _ => .error "Fuel exhausted"
  | _ + 1, _, [] => .error "Unterminated string"
  | fuel + 1, acc, c :: rest =>
    if c = '"' then .ok (String.mk acc.reverse, rest)
    else if c = '\\' then
      match rest with
      | [] => .error "Unterminated string"
      | 'u' :: h1 :: h2 :: h3 :: h4 :: r =>
        match hexDigit h1, hexDigit h2, hexDigit h3, hexDigit h4 with
        | some a, some b, some c2, some d =>
          parseStrBody fuel (Char.ofNat (((a * 16 + b) * 16 + c2) * 16 + d) :: acc) r
        | _, _, _, _ => .error "Invalid hex escape"
      | e :: r =>
        match escChar e with
        | some c2 => parseStrBody fuel (c2 :: acc) r
        | none => .error "Invalid escape"
    else if c.toNat < 32 then .error "Invalid control character"
    else parseStrBody fuel (c :: acc) rest

/-- Exponent part of a JSON number (`[eE][+-]?digits`); when the input does
not begin with a complete exponent, nothing is consumed and the exponent
is zero, matching the optional group of the number grammar. -/
def parseExp (input : List Char) : Int × List Char :=
  match input with
  | e :: rest =>
    if e = 'e' || e = 'E' then
      match rest with
      | s :: r2 =>
        if s = '+' then
          match List.span Char.isDigit r2 with
          | ([], _) => (0, input)
          | (ds, r3) => ((digitsToNat ds : Int), r3)
        else if s = '-' then
          match List.span Char.isDigit r2 with
          | ([], _) => (0, input)
          | (ds, r3) => (-(digitsToNat ds : Int), r3)
        else
          match List.span Char.isDigit rest with
          | ([], _) => (0, input)
          | (ds, r3) => ((digitsToNat ds : Int), r3)
      | [] => (0, input)
    else (0, input)
  | [] => (0, input)

/-- Fraction and exponent of a JSON number, given its sign and integer
digits; incomplete optional parts are left unconsumed, matching the
number grammar of Python's decoder. -/
def finishNumber (neg : Bool) (intDigits : List Char) (input : List Char) :
    Except String (JValue × List Char) :=
  let (fracDigits, r1) :=
    match input with
    | '.' :: d :: r => if d.isDigit then List.span Char.isDigit (d :: r) else ([], input)
    | _ => ([], input)
  let (expVal, r2) := parseExp r1
  let mantNat := digitsToNat (intDigits ++ fracDigits)
  let mant : Int := if neg then -(mantNat : Int) else (mantNat : Int)
  .ok (.num mant (expVal - fracDigits.length), r2)

/-- A JSON number (`-?(0|[1-9][0-9]*)(.[0-9]+)?([eE][+-]?[0-9]+)?`); a
leading zero may not be followed by further integer digits. -/
def parseNumber (input : List Char) : Except String (JValue × List Char) :=
  let (neg, r1) :=
    match input with
    | '-' :: r => (true, r)
    | _ => (false, input)
  match r1 with
  | c :: rest =>
    if c = '0' then finishNumber neg ['0'] rest
    else if c.isDigit then
      match List.span Char.isDigit r1 with
      | (ds, r2) => finishNumber neg ds r2
    else .error "Expecting value"
  | [] => .error "Expecting value"

mutual

/-- A JSON value and the remaining input, including the out-of-spec
constants `NaN`, `Infinity` and `-Infinity` that Python's decoder accepts
by default (a `-` followed by anything other than `Infinity` goes to the
number grammar, so `-NaN` is still rejected).  Fuel bounds the recursion;
the top-level entry point supplies more than enough for its input. -/
def parseVal : Nat → List Char → Except String (JValue × List Char)
  | 0, _ => .error "Fuel exhausted"
  | fuel + 1, input =>
    match skipWs input with
    | [] => .error "Expecting value"
    | 'n' :: 'u' :: 'l' :: 'l' :: rest => .ok (.null, rest)
    | 't' :: 'r' :: 'u' :: 'e' :: rest => .ok (.bool true, rest)
    | 'f' :: 'a' :: 'l' :: 's' :: 'e' :: rest => .ok (.bool false, rest)
    | 'N' :: 'a' :: 'N' :: rest => .ok (.nan, rest)
    | 'I' :: 'n' :: 'f' :: 'i' :: 'n' :: 'i' :: 't' :: 'y' :: rest => .ok (.inf false, rest)
    | '-' :: 'I' :: 'n' :: 'f' :: 'i' :: 'n' :: 'i' :: 't' :: 'y' :: rest =>
      .ok (.inf true, rest)
    | '"' :: rest =>
      match parseStrBody fuel [] rest with
      | .ok (s, r) => .ok (.str s, r)
      | .error e => .error e
    | '[' :: rest =>
      match skipWs rest with
      | ']' :: r => .ok (.arr [], r)
      | other => parseArrItems fuel [] other
    | c :: rest =>
      if c = '\x7b' then
        match skipWs rest with
        | d :: r => if d = '\x7d' then .ok (.obj [], r) else parseObjItems fuel [] (d :: r)
        | [] => .error "Unterminated object"
      else parseNumber (c :: rest)

/-- Elements of a non-empty JSON array, after the opening bracket. -/
def parseArrItems : Nat → List JValue → List Char → Except String (JValue × List Char)
  | 0, _, _ => .error "Fuel exhausted"
  | fuel + 1, acc, input =>
    match parseVal fuel input with
    | .error e => .error e
    | .ok (v, rest) =>
      match skipWs rest with
      | ',' :: r => parseArrItems fuel (v :: acc) r
      | ']' :: r => .ok (.arr (v :: acc).reverse, r)
      | _ => .error "Expecting comma or bracket"

/-- Members of a non-empty JSON object, after the opening brace. -/
def parseObjItems : Nat → List (String × JValue) → List Char →
    Except String (JValue × List Char)
  | 0, _, _ => .error "Fuel exhausted"
  | fuel + 1, acc, input =>
    match skipWs input with
    | '"' :: rest =>
      match parseStrBody fuel [] rest with
      | .error e => .error e
      | .ok (k, r1) =>
        match skipWs r1 with
        | ':' :: r2 =>
          match parseVal fuel r2 with
          | .error e => .error e
          | .ok (v, r3) =>
            match skipWs r3 with
            | ',' :: r4 => parseObjItems fuel ((k, v) :: acc) r4
            | d :: r4 =>
              if d = '\x7d' then .ok (.obj ((k, v) :: acc).reverse, r4)
              else .error "Expecting comma or brace"
            | [] => .error "Unterminated object"
        | _ => .error "Expecting colon"
    | _ => .error "Expecting property name"

end

/-- `json.loads` on a string: parse one JSON value, then require only
whitespace to remain. -/
def json_loads (s : String) : Except String JValue :=
  match parseVal (4 * s.length + 8) s.data with
  | .error e => .error e
  | .ok (v, rest) =>
    match skipWs rest with
    | [] => .ok v
    | _ => .error "Extra data"

/-- `json.loads` applied to an arbitrary Python value: only strings are
accepted, any other argument raises a `TypeError` (bytes cannot occur in a
JSON-derived event). -/
def json_loads_py : PyValue → Except String JValue
  | .str s => json_loads s
  | _ => .error "the JSON object must be str, bytes or bytearray"

/-- Dynamic attribute call `body.get(key, default)` on a decoded JSON
value: only dictionaries have a `get` method, any other value raises an
`AttributeError`. -/
def jvalue_get (v : JValue) (key : String) (dflt : JValue) : Except String JValue :=
  match v with
  | .obj fields => .ok ((dictFind fields key).getD dflt)
  | _ => .error "object has no attribute get"

/-! ### `json.dumps` on the flat string-valued dictionaries the handler
serializes -/

/-- One character of a JSON-serialized string, following Python's
`json.dumps` escaping of quotes, backslashes and control characters. -/
def escapeJsonChar (c : Char) : String :=
  if c = '"' then "\\\""
  else if c = '\\' then "\\\\"
  else if c = Char.ofNat 8 then "\\b"
  else if c = Char.ofNat 12 then "\\f"
  else if c = '\n' then "\\n"
  else if c = '\r' then "\\r"
  else if c = '\t' then "\\t"
  else if c.toNat < 32 then
    let lo := c.toNat % 16
    let hi := c.toNat / 16
    let hexc := fun n => if n < 10 then Char.ofNat (48 + n) else Char.ofNat (87 + n)
    "\\u00" ++ String.singleton (hexc hi) ++ String.singleton (hexc lo)
  else String.singleton c

/-- JSON-escape every character of a string. -/
def escapeJson (s : String) : String :=
  String.join (s.data.map escapeJsonChar)

/-- `json.dumps` on a dictionary whose values are strings, with Python's
default separators (`", "` between items, `": "` after a key). -/
def json_dumps_obj (fields : List (String × String)) : String :=
  "\x7b" ++ String.intercalate ", "
    (fields.map (fun kv => "\"" ++ escapeJson kv.1 ++ "\": \"" ++ escapeJson kv.2 ++ "\""))
    ++ "\x7d"

/-! ### The handler -/

/-- The structured response returned by the handler. -/
structure OutboundResponse where
  statusCode : Nat
  headers : List (String × String)
  body : String
deriving Repr, DecidableEq

/-- The handler's observable outcome: its returned response together with
the diagnostic log lines written during the call. -/
structure HandlerResult where
  response : OutboundResponse
  logs : List String
deriving Repr, DecidableEq

/-- The 200 response of `lambda_handler` (lines 28-37 of the source). -/
def response200 : OutboundResponse :=
  { statusCode := 200
    headers := [("Content-Type", "application/json"), ("Access-Control-Allow-Origin", "*")]
    body := json_dumps_obj [("response", "Hello world")] }

/-- The 400 response of `lambda_handler` (lines 22-26 of the source). -/
def response400 : OutboundResponse :=
  { statusCode := 400
    headers := [("Content-Type", "application/json")]
    body := json_dumps_obj [("error", "Message is required")] }

/-- The 500 response of `lambda_handler` (lines 41-45 of the source). -/
def response500 : OutboundResponse :=
  { statusCode := 500
    headers := [("Content-Type", "application/json")]
    body := json_dumps_obj [("error", "Internal server error")] }

/-- The body of the `try` block of `lambda_handler` (lines 17-37):
`body = json.loads(event.get('body', '\x7b\x7d'))`, then
`message = body.get('message', '')`, then the emptiness branch.  A raised
exception is an `Except.error` carrying `str(e)`. -/
def handler_try (event : Event) : Except String OutboundResponse :=
  match json_loads_py ((dictFind event "body").getD (PyValue.str "\x7b\x7d")) with
  | .error e => .error e
  | .ok body =>
    match jvalue_get body "message" (JValue.str "") with
    | .error e => .error e
    | .ok message =>
      if truthy message = false then .ok response400
      else .ok response200

/-- `lambda_handler(event, context)`: run the `try` block; on an exception
`e`, log `f"Error: \x7bstr(e)\x7d"` and return the 500 response
(lines 39-45 of the source).  The unused `context` argument is kept. -/
def lambda_handler (event : Event) (_context : PyValue) : HandlerResult :=
  match handler_try event with
  | .ok resp => { response := resp, logs := [] }
  | .error e => { response := response500, logs := ["Error: " ++ e] }

end ClinicConnect

namespace ClinicConnect

/-! ### Theorems -/

/-- Inversion for the `try` block: when it completes without an exception,
its value is the 400 response or the 200 response. -/
theorem handler_try_ok (event : Event) (resp : OutboundResponse)
    (h : handler_try event = Except.ok resp) :
    resp = response400 ∨ resp = response200 := by
  unfold handler_try at h
  split at h
  · exact Except.noConfusion h
  · split at h
    · exact Except.noConfusion h
    · split at h
      · injection h with h2
        exact Or.inl h2.symm
      · injection h with h2
        exact Or.inr h2.symm

/-- Shared case analysis: every call of `lambda_handler` produces exactly
one of the three fixed responses, with an empty log on the 200 and 400
paths and a single `Error: `-prefixed log line on the 500 path. -/
theorem lambda_handler_cases (event : Event) (ctx : PyValue) :
    lambda_handler event ctx = ⟨response200, []⟩ ∨
    lambda_handler event ctx = ⟨response400, []⟩ ∨
    ∃ e, lambda_handler event ctx = ⟨response500, ["Error: " ++ e]⟩ := by
  unfold lambda_handler
  cases h : handler_try event with
  | error e => exact Or.inr (Or.inr ⟨e, rfl⟩)
  | ok resp =>
    rcases handler_try_ok event resp h with h2 | h2 <;> subst h2
    · exact Or.inr (Or.inl rfl)
    · exact Or.inl rfl

/-- Shared case analysis on responses only: every call of `lambda_handler`
returns one of the three fixed responses. -/
theorem lambda_handler_response_cases (event : Event) (ctx : PyValue) :
    (lambda_handler event ctx).response = response200 ∨
    (lambda_handler event ctx).response = response400 ∨
    (lambda_handler event ctx).response = response500 := by
  rcases lambda_handler_cases event ctx with h | h | ⟨e, h⟩ <;> rw [h]
  · exact Or.inl rfl
  · exact Or.inr (Or.inl rfl)
  · exact Or.inr (Or.inr rfl)

/-- C1: for every inbound event whose body is a valid JSON object holding a
nonempty string under the key `message`, `lambda_handler` returns the fixed
200 response (status 200, headers `Content-Type: application/json` and
`Access-Control-Allow-Origin: *`, body the JSON text
`{"response": "Hello world"}`) with no log line; the right-hand side is one
constant, so the output is identical for all such messages. -/
theorem C1_nonempty_string_message_yields_fixed_200
    (event : Event) (ctx : PyValue) (s : String)
    (fields : List (String × JValue)) (msg : String)
    (hbody : dictFind event "body" = some (PyValue.str s))
    (hparse : json_loads s = Except.ok (JValue.obj fields))
    (hmsg : dictFind fields "message" = some (JValue.str msg))
    (hne : msg ≠ "") :
    lambda_handler event ctx = ⟨response200, []⟩ := by
  have hempty : msg.isEmpty = false := by
    cases h : msg.isEmpty
    · rfl
    · exact absurd ((String.isEmpty_iff msg).mp h) hne
  simp [lambda_handler, handler_try, hbody, json_loads_py, hparse, jvalue_get, hmsg,
    truthy, hempty]

/-- Witness for C1: the event whose body is `{"message": "hi"}` yields the
200 result. -/
theorem C1_witness :
    lambda_handler [("body", PyValue.str "\x7b\"message\": \"hi\"\x7d")] PyValue.none =
      ⟨response200, []⟩ :=
  C1_nonempty_string_message_yields_fixed_200
    [("body", PyValue.str "\x7b\"message\": \"hi\"\x7d")] PyValue.none
    "\x7b\"message\": \"hi\"\x7d" [("message", JValue.str "hi")] "hi"
    rfl rfl rfl (by decide)

/-- C2: for every inbound event whose body is the JSON text
`{"message": ""}` or `{}`, or whose `body` field is absent,
`lambda_handler` returns status 400 with header
`Content-Type: application/json` and body `{"error": "Message is required"}`
and no log line. -/
theorem C2_empty_or_absent_message_yields_400
    (event : Event) (ctx : PyValue)
    (h : dictFind event "body" = some (PyValue.str "\x7b\"message\": \"\"\x7d") ∨
         dictFind event "body" = some (PyValue.str "\x7b\x7d") ∨
         dictFind event "body" = none) :
    lambda_handler event ctx = ⟨response400, []⟩ := by
  rcases h with h | h | h <;>
    · unfold lambda_handler handler_try
      rw [h]
      rfl

/-- Witness for C2: an event with no `body` field at all yields the 400
result. -/
theorem C2_witness :
    lambda_handler [] PyValue.none = ⟨response400, []⟩ :=
  C2_empty_or_absent_message_yields_400 [] PyValue.none (Or.inr (Or.inr rfl))

/-- C3: for every inbound event whose body is a string that is not valid
JSON, `lambda_handler` returns status 500 with header
`Content-Type: application/json` and body
`{"error": "Internal server error"}`, and writes one diagnostic log line
containing the failure description. -/
theorem C3_invalid_json_body_yields_500_and_log
    (event : Event) (ctx : PyValue) (s : String) (err : String)
    (hbody : dictFind event "body" = some (PyValue.str s))
    (hfail : json_loads s = Except.error err) :
    lambda_handler event ctx = ⟨response500, ["Error: " ++ err]⟩ := by
  unfold lambda_handler handler_try
  rw [hbody]
  simp [json_loads_py, hfail]

/-- Witness for C3: the event whose body is the literal string `not-json`
yields the 500 result with the parse failure logged. -/
theorem C3_witness :
    lambda_handler [("body", PyValue.str "not-json")] PyValue.none =
      ⟨response500, ["Error: " ++ "Expecting value"]⟩ :=
  C3_invalid_json_body_yields_500_and_log
    [("body", PyValue.str "not-json")] PyValue.none "not-json" "Expecting value" rfl rfl

/-- C4: `lambda_handler` is total: it is a total function of the event, its
response is always one of the three structured responses, and every
internal failure of the `try` block is converted to the 500 response. -/
theorem C4_total_and_failures_become_500 (event : Event) (ctx : PyValue) :
    ((lambda_handler event ctx).response = response200 ∨
     (lambda_handler event ctx).response = response400 ∨
     (lambda_handler event ctx).response = response500) ∧
    (∀ e, handler_try event = Except.error e →
      lambda_handler event ctx = ⟨response500, ["Error: " ++ e]⟩) := by
  constructor
  · rcases lambda_handler_cases event ctx with h | h | ⟨e, h⟩ <;> rw [h]
    · exact Or.inl rfl
    · exact Or.inr (Or.inl rfl)
    · exact Or.inr (Or.inr rfl)
  · intro e he
    unfold lambda_handler
    rw [he]

/-- Witness for C4: an event whose `body` value is the number 5 makes the
`try` block raise, and the failure is converted to the 500 response. -/
theorem C4_witness :
    lambda_handler [("body", PyValue.int 5)] PyValue.none =
      ⟨response500, ["Error: " ++ "the JSON object must be str, bytes or bytearray"]⟩ :=
  (C4_total_and_failures_become_500 [("body", PyValue.int 5)] PyValue.none).2
    "the JSON object must be str, bytes or bytearray" rfl

/-- Whether a decoded JSON object has a binding for a key. -/
def hasKey (fields : List (String × JValue)) (key : String) : Bool :=
  (dictFind fields key).isSome

/-- C5: for every inbound event, the response body decodes as a JSON
object containing exactly one of the keys `response` and `error`: never
both and never neither. -/
theorem C5_body_has_exactly_one_of_response_error (event : Event) (ctx : PyValue) :
    ∃ fields,
      json_loads ((lambda_handler event ctx).response.body) = Except.ok (JValue.obj fields) ∧
      ((hasKey fields "response" = true ∧ hasKey fields "error" = false) ∨
       (hasKey fields "response" = false ∧ hasKey fields "error" = true)) := by
  rcases lambda_handler_response_cases event ctx with h | h | h <;> rw [h]
  · exact ⟨[("response", JValue.str "Hello world")], rfl, Or.inl ⟨rfl, rfl⟩⟩
  · exact ⟨[("error", JValue.str "Message is required")], rfl, Or.inr ⟨rfl, rfl⟩⟩
  · exact ⟨[("error", JValue.str "Internal server error")], rfl, Or.inr ⟨rfl, rfl⟩⟩

/-- C6: for every inbound event, the response carries the header
`Access-Control-Allow-Origin: *` exactly when its status is 200, and every
response carries `Content-Type: application/json`. -/
theorem C6_cors_header_iff_200 (event : Event) (ctx : PyValue) :
    ((("Access-Control-Allow-Origin", "*") ∈ (lambda_handler event ctx).response.headers) ↔
      (lambda_handler event ctx).response.statusCode = 200) ∧
    ("Content-Type", "application/json") ∈ (lambda_handler event ctx).response.headers := by
  rcases lambda_handler_response_cases event ctx with h | h | h <;> rw [h] <;> exact (by decide)

/-- C7: for every inbound event, the response status code is one of 200,
400 and 500. -/
theorem C7_status_in_200_400_500 (event : Event) (ctx : PyValue) :
    (lambda_handler event ctx).response.statusCode = 200 ∨
    (lambda_handler event ctx).response.statusCode = 400 ∨
    (lambda_handler event ctx).response.statusCode = 500 := by
  rcases lambda_handler_response_cases event ctx with h | h | h <;> rw [h]
  · exact Or.inl rfl
  · exact Or.inr (Or.inl rfl)
  · exact Or.inr (Or.inr rfl)

/-- C8: for every inbound event whose body is a valid JSON object whose
`message` value is falsy in Python's sense (the number 0, `false`, the
empty list, the empty string, `null`, or the empty object), `lambda_handler`
returns the 400 response with body `{"error": "Message is required"}`:
falsy non-string values are coerced to the missing-message case. -/
theorem C8_falsy_message_yields_400
    (event : Event) (ctx : PyValue) (s : String)
    (fields : List (String × JValue)) (v : JValue)
    (hbody : dictFind event "body" = some (PyValue.str s))
    (hparse : json_loads s = Except.ok (JValue.obj fields))
    (hmsg : dictFind fields "message" = some v)
    (hfalsy : truthy v = false) :
    lambda_handler event ctx = ⟨response400, []⟩ := by
  simp [lambda_handler, handler_try, hbody, json_loads_py, hparse, jvalue_get, hmsg, hfalsy]

/-- Witness for C8: the bodies `{"message": 0}`, `{"message": false}`,
`{"message": []}`, `{"message": ""}` and `{"message": null}` all yield the
400 result. -/
theorem C8_witness :
    lambda_handler [("body", PyValue.str "\x7b\"message\": 0\x7d")] PyValue.none =
      ⟨response400, []⟩ ∧
    lambda_handler [("body", PyValue.str "\x7b\"message\": false\x7d")] PyValue.none =
      ⟨response400, []⟩ ∧
    lambda_handler [("body", PyValue.str "\x7b\"message\": []\x7d")] PyValue.none =
      ⟨response400, []⟩ ∧
    lambda_handler [("body", PyValue.str "\x7b\"message\": \"\"\x7d")] PyValue.none =
      ⟨response400, []⟩ ∧
    lambda_handler [("body", PyValue.str "\x7b\"message\": null\x7d")] PyValue.none =
      ⟨response400, []⟩ :=
  ⟨C8_falsy_message_yields_400 [("body", PyValue.str "\x7b\"message\": 0\x7d")] PyValue.none
      "\x7b\"message\": 0\x7d" [("message", JValue.num 0 0)] (JValue.num 0 0) rfl rfl rfl rfl,
   C8_falsy_message_yields_400 [("body", PyValue.str "\x7b\"message\": false\x7d")] PyValue.none
      "\x7b\"message\": false\x7d" [("message", JValue.bool false)] (JValue.bool false)
      rfl rfl rfl rfl,
   C8_falsy_message_yields_400 [("body", PyValue.str "\x7b\"message\": []\x7d")] PyValue.none
      "\x7b\"message\": []\x7d" [("message", JValue.arr [])] (JValue.arr []) rfl rfl rfl rfl,
   C8_falsy_message_yields_400 [("body", PyValue.str "\x7b\"message\": \"\"\x7d")] PyValue.none
      "\x7b\"message\": \"\"\x7d" [("message", JValue.str "")] (JValue.str "") rfl rfl rfl rfl,
   C8_falsy_message_yields_400 [("body", PyValue.str "\x7b\"message\": null\x7d")] PyValue.none
      "\x7b\"message\": null\x7d" [("message", JValue.null)] JValue.null rfl rfl rfl rfl⟩

/-- C9: for every inbound event whose body is valid JSON whose top-level
value is not an object (for example `null`, `5`, `"hi"`, `true` or
`[1,2]`), `lambda_handler` returns the 500 response: the parse succeeds
but the `get` attribute lookup on a non-dictionary raises and is caught. -/
theorem C9_non_object_json_body_yields_500
    (event : Event) (ctx : PyValue) (s : String) (j : JValue)
    (hbody : dictFind event "body" = some (PyValue.str s))
    (hparse : json_loads s = Except.ok j)
    (hnotobj : ∀ fields, j ≠ JValue.obj fields) :
    (lambda_handler event ctx).response = response500 := by
  have hget : jvalue_get j "message" (JValue.str "") =
      Except.error "object has no attribute get" := by
    cases j <;> first | rfl | exact absurd rfl (hnotobj _)
  simp [lambda_handler, handler_try, hbody, json_loads_py, hparse, hget]

/-- Witness for C9: the body `5` is valid JSON but not an object and
yields the 500 response. -/
theorem C9_witness :
    (lambda_handler [("body", PyValue.str "5")] PyValue.none).response = response500 :=
  C9_non_object_json_body_yields_500 [("body", PyValue.str "5")] PyValue.none
    "5" (JValue.num 5 0) rfl rfl (fun _ h => JValue.noConfusion h)

/-- C10: for every inbound event whose `body` field is present with a
non-string value (for example `None`), `lambda_handler` returns the 500
response: the empty-mapping default applies only when the key is absent,
and `json.loads` of a non-string raises and is caught. -/
theorem C10_non_string_body_value_yields_500
    (event : Event) (ctx : PyValue) (v : PyValue)
    (hbody : dictFind event "body" = some v)
    (hnotstr : ∀ s, v ≠ PyValue.str s) :
    (lambda_handler event ctx).response = response500 := by
  have hload : json_loads_py v =
      Except.error "the JSON object must be str, bytes or bytearray" := by
    cases v <;> first | rfl | exact absurd rfl (hnotstr _)
  simp [lambda_handler, handler_try, hbody, hload]

/-- Witness for C10: an event whose `body` value is `None` yields the 500
response. -/
theorem C10_witness :
    (lambda_handler [("body", PyValue.none)] PyValue.none).response = response500 :=
  C10_non_string_body_value_yields_500 [("body", PyValue.none)] PyValue.none
    PyValue.none rfl (fun _ h => PyValue.noConfusion h)

end ClinicConnect
